import Mathlib

/-!
Shallow embedding of `proxypool.go` (package proxypool).

Time is modelled as rational seconds (`ℚ`): `time.Now()` becomes an explicit
`now : ℚ` parameter and `time.Since(t).Seconds()` becomes `now - t`.
The network environment (the SOCKS dial, the `http.Client` and the remote
server) is modelled by an explicit `HttpResult` value describing what one
`client.Get` call observed: a transport error, or a response carrying a
status code together with the outcome of reading its body.  Byte slices are
`List Nat`.  Goroutines launched with `go` are recorded as data (the list of
fetches spawned, the fan-out of `Create` calls) rather than interleaved.
-/

instance {ε α : Type} [DecidableEq ε] [DecidableEq α] : DecidableEq (Except ε α) := fun
  | .ok a, .ok b => decidable_of_iff (a = b) (by simp)
  | .ok _, .error _ => .isFalse (by simp)
  | .error _, .ok _ => .isFalse (by simp)
  | .error e, .error f => decidable_of_iff (e = f) (by simp)

/-- Outcome of one `proxy.client.Get(url)` call as the Go code can observe
it: either the request itself failed (transport/connection error), or a
response arrived with some status code and the body read (`ioutil.ReadAll`)
either failed or produced bytes. -/
inductive HttpResult where
  | transportError : HttpResult
  | response (statusCode : Nat) (body : Except Unit (List Nat)) : HttpResult
deriving DecidableEq, Repr

/-- The three error kinds `Proxy.Get` can return:
`HTTP request failed: ...`, `can't read response: ...`,
`test URL replied with HTTP code %d`. -/
inductive GetError where
  | httpRequestFailed : GetError
  | cantReadResponse : GetError
  | badStatus (code : Nat) : GetError
deriving DecidableEq, Repr

/-- The `Proxy` struct.  The opaque capabilities `dial`, `transport` and
`client` are not carried as data: their behaviour is supplied to each fetch
as an `HttpResult`.  The `protocol` field of the Go struct is never written
by any function in the file and is omitted. -/
structure Proxy where
  URL : String := ""
  Alive : Bool := false
  ip : String := ""
  port : Int := 0
  lastRequest : ℚ := 0
deriving DecidableEq, Repr

/-- `Proxy.Get`: records `lastRequest = time.Now()` first, performs the GET,
then classifies: request error → dead; body-read error → dead; status other
than `http.StatusOK` (200) → dead; otherwise alive, returning the body. -/
def Proxy.get (p : Proxy) (r : HttpResult) (now : ℚ) :
    Proxy × Except GetError (List Nat) :=
  let p := { p with lastRequest := now }
  match r with
  | .transportError => ({ p with Alive := false }, .error .httpRequestFailed)
  | .response code body =>
    match body with
    | .error _ => ({ p with Alive := false }, .error .cantReadResponse)
    | .ok buf =>
      if code ≠ 200 then ({ p with Alive := false }, .error (.badStatus code))
      else ({ p with Alive := true }, .ok buf)

/-- An observed HTTP outcome counts as success exactly when the response
arrived, its body was read, and the status code was 200. -/
def HttpResult.isSuccess : HttpResult → Bool
  | .response code (.ok _) => code == 200
  | _ => false

/-- Whether a `Proxy.Get` result is a returned body rather than an error. -/
def resultOk : Except GetError (List Nat) → Bool
  | .ok _ => true
  | .error _ => false

/-- Observable events of one `Proxy.Get` call, in the order the Go
statements execute them. -/
inductive GetEvent where
  | writeLastRequest : GetEvent
  | httpGet : GetEvent
  | writeAliveFalse : GetEvent
  | writeAliveTrue : GetEvent
  | returnError : GetEvent
  | returnBody : GetEvent
deriving DecidableEq, Repr

/-- The statement-order trace of `Proxy.Get`: the `lastRequest` write,
then the `client.Get` call, then the outcome classification. -/
def Proxy.getTrace (r : HttpResult) : List GetEvent :=
  [.writeLastRequest, .httpGet] ++
    match r with
    | .transportError => [.writeAliveFalse, .returnError]
    | .response code body =>
      match body with
      | .error _ => [.writeAliveFalse, .returnError]
      | .ok _ =>
        if code ≠ 200 then [.writeAliveFalse, .returnError]
        else [.writeAliveTrue, .returnBody]

/-- The `ProxyPool` struct. -/
structure ProxyPool where
  proxies : List Proxy := []
  TestURL : String := ""
  RateLimit : Int := 0
  RetestDelay : Int := 0
  AliveCount : Int := 0
  AvailableCount : Int := 0
deriving DecidableEq, Repr

/-- `NewProxyPool` constructs a pool with the given configuration and no
proxies. -/
def NewProxyPool (testURL : String) (rateLimit : Int) (retestDelay : Int) :
    ProxyPool :=
  { TestURL := testURL, RateLimit := rateLimit, RetestDelay := retestDelay }

/-- The first condition of the scan in `GetAvailableProxy`:
`time.Since(p.lastRequest).Seconds() > float64(RetestDelay) && !p.Alive`. -/
def needsRetest (retestDelay : Int) (now : ℚ) (p : Proxy) : Bool :=
  (decide ((retestDelay : ℚ) < now - p.lastRequest)) && !p.Alive

/-- The second condition of the scan in `GetAvailableProxy`:
`time.Since(p.lastRequest).Seconds() > float64(RateLimit) && p.Alive`. -/
def isAvailable (rateLimit : Int) (now : ℚ) (p : Proxy) : Bool :=
  (decide ((rateLimit : ℚ) < now - p.lastRequest)) && p.Alive

/-- The loop body of `GetAvailableProxy` over the remaining proxies: for
each proxy in order, a dead proxy past the retest delay has a background
`Get` spawned for it (collected in the first component, since a `go`
statement mutates nothing synchronously), and the first alive proxy past
the rate limit is returned at once, ending the scan. -/
def scanAvailable (rateLimit retestDelay : Int) (now : ℚ) :
    List Proxy → List Proxy × Option Proxy
  | [] => ([], none)
  | p :: rest =>
    let retests := if needsRetest retestDelay now p then [p] else []
    if isAvailable rateLimit now p then (retests, some p)
    else
      let r := scanAvailable rateLimit retestDelay now rest
      (retests ++ r.1, r.2)

/-- `ProxyPool.GetAvailableProxy`: a single in-order scan.  It returns the
pool (unchanged — the function assigns to no field), the list of proxies a
background retest was spawned for, and the selected proxy (`none` models
the `errors.New("no proxies available")` return). -/
def ProxyPool.getAvailableProxy (pool : ProxyPool) (now : ℚ) :
    ProxyPool × List Proxy × Option Proxy :=
  (pool, scanAvailable pool.RateLimit pool.RetestDelay now pool.proxies)

/-- An alive proxy whose `lastRequest` is time 0, for concrete scenarios. -/
def pAliveReady : Proxy :=
  { Alive := true, lastRequest := 0 }

/-- A dead proxy whose `lastRequest` is time 0, for concrete scenarios. -/
def pDeadCold : Proxy :=
  { Alive := false, lastRequest := 0 }

/-- A pool holding one alive proxy, `RateLimit` 10, `RetestDelay` 300. -/
def poolBoundary : ProxyPool :=
  { proxies := [pAliveReady], TestURL := "http://example.com",
    RateLimit := 10, RetestDelay := 300 }

/-- A pool holding a dead proxy, then an alive one; `RateLimit` 10,
`RetestDelay` 300. -/
def poolTwo : ProxyPool :=
  { proxies := [pDeadCold, pAliveReady], TestURL := "http://example.com",
    RateLimit := 10, RetestDelay := 300 }

/-- A pool holding one dead proxy, `RateLimit` 10, `RetestDelay` 300. -/
def poolDeadCold : ProxyPool :=
  { proxies := [pDeadCold], TestURL := "http://example.com",
    RateLimit := 10, RetestDelay := 300 }

/-- The connection URL `fmt.Sprintf("socks%d://%s:%d", version, ip, port)`
composed in `Proxy.Create`. -/
def socksURL (version : Int) (ip : String) (port : Int) : String :=
  "socks" ++ toString version ++ "://" ++ ip ++ ":" ++ toString port

/-- The array `socksVersions := [2]int{5, 4}` of `Proxy.Create`. -/
def socksVersions : List Int :=
  [5, 4]

/-- The version loop of `Proxy.Create`: for each SOCKS version in turn, the
connection URL is composed (the dial, transport and client it binds are
absorbed into `env`, which gives the observed outcome of the test fetch per
version) and `Get` is run against the test URL; the loop breaks on the
first fetch that returns no error.  The second component records the
versions attempted, in order. -/
def Proxy.createLoop (env : Int → HttpResult) (now : ℚ) :
    Proxy → List Int → Proxy × List Int
  | p, [] => (p, [])
  | p, version :: rest =>
    let p := { p with URL := socksURL version p.ip p.port }
    let res := p.get (env version) now
    match res.2 with
    | .ok _ => (res.1, [version])
    | .error _ =>
      let r := Proxy.createLoop env now res.1 rest
      (r.1, version :: r.2)

/-- `Proxy.Create`: negotiation over `socksVersions` (5 then 4).  The
`wg.Done()` fan-in marker carries no state and is not modelled as data. -/
def Proxy.create (p : Proxy) (env : Int → HttpResult) (now : ℚ) :
    Proxy × List Int :=
  Proxy.createLoop env now p socksVersions

/-- `strings.Split(s, sep)` for a one-character separator, on the
character list of the string. -/
def splitOnChar (sep : Char) : List Char → List (List Char)
  | [] => [[]]
  | c :: rest =>
    let r := splitOnChar sep rest
    if c = sep then [] :: r
    else
      match r with
      | [] => [[c]]
      | g :: gs => (c :: g) :: gs

/-- `strings.Split(s, ":")` as `LoadProxies` calls it: Go's Split with a
non-empty separator always returns at least one field. -/
def goSplit (s : String) (sep : Char) : List String :=
  (splitOnChar sep s.data).map List.asString

/-- Value of a digit list read in base 10. -/
def digitsVal (cs : List Char) : Nat :=
  cs.foldl (fun a c => a * 10 + (c.toNat - 48)) 0

/-- A nonempty all-digit character list parses; anything else does not. -/
def parseDigits (cs : List Char) : Option Nat :=
  if cs ≠ [] ∧ cs.all Char.isDigit then some (digitsVal cs) else none

/-- `strconv.Atoi`: an optional sign followed by one or more digits; any
other shape is an error (`none`).  The 64-bit range check is not modelled;
ports are small. -/
def atoi (s : String) : Option Int :=
  match s.data with
  | '+' :: rest => (parseDigits rest).map (fun n => (n : Int))
  | '-' :: rest => (parseDigits rest).map (fun n => -(n : Int))
  | cs => (parseDigits cs).map (fun n => (n : Int))

/-- One record of the scan loop of `LoadProxies`:
`line := strings.Split(text, ":")` followed by the unchecked reads
`line[0]` and `line[1]` and by `port, _ := strconv.Atoi(line[1])`.  A line
whose split has fewer than two fields makes `line[1]` panic with an index
out of range (`none` here); a non-numeric port is not reported — the
`Atoi` error is discarded and the port becomes `Atoi`'s zero value. -/
def parseRecord (text : String) : Option (String × Int) :=
  match goSplit text ':' with
  | ip :: portStr :: _ => some (ip, (atoi portStr).getD 0)
  | _ => none

/-- All records of the scan loop; `none` models the index-out-of-range
panic aborting the whole program at the first malformed line. -/
def parseRecords : List String → Option (List (String × Int))
  | [] => some []
  | t :: rest =>
    match parseRecord t with
    | none => none
    | some r => (parseRecords rest).map (r :: ·)

/-- The endpoint source `LoadProxies` reads: `os.Open` may fail, or the
source yields the scanned lines together with whether `scanner.Err()`
reports a read error once the scan stops. -/
inductive Source where
  | openFailure : Source
  | lines (content : List String) (readErr : Bool) : Source

/-- How a `LoadProxies` call can end: `log.Fatal` on `os.Open` failure
terminates the process; the index-out-of-range panic on a malformed line
crashes it; a `scanner.Err()` read failure is returned as an error to the
caller (the surviving proxies were already appended by then); otherwise the
updated pool comes back with a `nil` error. -/
inductive LoadOutcome where
  | fatalExit : LoadOutcome
  | panicked : LoadOutcome
  | failed (pool : ProxyPool) : LoadOutcome
  | ok (pool : ProxyPool) : LoadOutcome
deriving DecidableEq, Repr

/-- `ProxyPool.UpdateCounts`: one pass counting the alive proxies and,
among them, those past the rate limit. -/
def ProxyPool.updateCounts (pool : ProxyPool) (now : ℚ) : ProxyPool :=
  { pool with
    AliveCount := ((pool.proxies.filter (·.Alive)).length : Int)
    AvailableCount := ((pool.proxies.filter
      (fun p => p.Alive &&
        decide ((pool.RateLimit : ℚ) < now - p.lastRequest))).length : Int) }

/-- The fan-out/fan-in of `LoadProxies`: each record becomes a
`Proxy{ip: ip, port: port}` whose `Create` runs as its own goroutine, and
`wg.Wait()` joins them all; each task owns exactly one proxy, so the join
leaves each candidate in the state its own negotiation produced (`env i`
is the network behaviour candidate `i` observes per SOCKS version). -/
def negotiateAll (env : Nat → Int → HttpResult) (now : ℚ)
    (recs : List (String × Int)) : List Proxy :=
  recs.enum.map fun r =>
    (Proxy.create { ip := r.2.1, port := r.2.2 } (env r.1) now).1

/-- `ProxyPool.LoadProxies`: open the source (`log.Fatal` on failure),
scan it line by line building candidates (panicking on a line whose split
has one field), negotiate all candidates concurrently and join, append the
candidates left alive to the pool in record order, then either return the
scanner's read error or recompute the counters and return `nil`. -/
def ProxyPool.loadProxies (pool : ProxyPool) (src : Source)
    (env : Nat → Int → HttpResult) (now : ℚ) : LoadOutcome :=
  match src with
  | .openFailure => .fatalExit
  | .lines content readErr =>
    match parseRecords content with
    | none => .panicked
    | some recs =>
      let candidates := negotiateAll env now recs
      let pool := { pool with
        proxies := pool.proxies ++ candidates.filter (·.Alive) }
      if readErr then .failed pool
      else .ok (pool.updateCounts now)

/-- An environment in which every fetch through every candidate fails at
the transport. -/
def envAllFail : Nat → Int → HttpResult :=
  fun _ _ => .transportError

/-- An environment in which only candidate 1 succeeds, over SOCKS5. -/
def envOneGood : Nat → Int → HttpResult :=
  fun i v =>
    if i = 1 ∧ v = 5 then .response 200 (.ok [104, 105]) else .transportError

/-- An environment (for a single proxy) in which the SOCKS5 test fetch
succeeds. -/
def envSocks5 : Int → HttpResult :=
  fun v => if v = 5 then .response 200 (.ok [111]) else .transportError

/-- The proxy that the pool admits when loading
`["1.1.1.1:1080", "2.2.2.2:1080"]` under `envOneGood` at time 0. -/
def proxyTwoGood : Proxy :=
  { URL := "socks5://2.2.2.2:1080", Alive := true, ip := "2.2.2.2",
    port := 1080, lastRequest := 0 }

/-- C1: after any `Proxy.Get`, the `Alive` flag is true iff that fetch
returned an HTTP 200 response whose body was read successfully; every other
outcome (transport error, body-read error, non-200 status) leaves `Alive`
false, and the call returns a body rather than an error exactly in the
success case. -/
theorem get_alive_iff_httpSuccess (p : Proxy) (r : HttpResult) (now : ℚ) :
    (p.get r now).1.Alive = r.isSuccess ∧
    resultOk (p.get r now).2 = r.isSuccess := by
  rcases r with _ | ⟨code, body⟩
  · simp [Proxy.get, HttpResult.isSuccess, resultOk]
  · rcases body with _ | buf
    · simp [Proxy.get, HttpResult.isSuccess, resultOk]
    · by_cases h : code = 200
      · subst h
        simp [Proxy.get, HttpResult.isSuccess, resultOk]
      · simp [Proxy.get, HttpResult.isSuccess, resultOk, h]

/-- C2: every `Proxy.Get` call, whatever its outcome, sets `lastRequest` to
the time of the attempt, and in the statement order of the code the
`lastRequest` write happens before the HTTP request is issued. -/
theorem get_records_attempt_time_first (p : Proxy) (r : HttpResult) (now : ℚ) :
    (p.get r now).1.lastRequest = now ∧
    (Proxy.getTrace r).take 2 = [.writeLastRequest, .httpGet] := by
  constructor
  · rcases r with _ | ⟨code, body⟩
    · simp [Proxy.get]
    · rcases body with _ | buf
      · simp [Proxy.get]
      · by_cases h : code = 200
        · subst h; simp [Proxy.get]
        · simp [Proxy.get, h]
  · simp [Proxy.getTrace]

theorem scanAvailable_retests (rateLimit retestDelay : Int) (now : ℚ)
    (l : List Proxy) :
    ∀ q ∈ (scanAvailable rateLimit retestDelay now l).1,
      needsRetest retestDelay now q = true := by
  induction l with
  | nil => simp [scanAvailable]
  | cons p rest ih =>
    intro q hq
    by_cases hr : needsRetest retestDelay now p
    · by_cases ha : isAvailable rateLimit now p
      · simp [scanAvailable, hr, ha] at hq
        subst hq; exact hr
      · simp [scanAvailable, hr, ha] at hq
        rcases hq with hq | hq
        · subst hq; exact hr
        · exact ih q hq
    · by_cases ha : isAvailable rateLimit now p
      · simp [scanAvailable, hr, ha] at hq
      · simp [scanAvailable, hr, ha] at hq
        exact ih q hq

theorem scanAvailable_select (rateLimit retestDelay : Int) (now : ℚ)
    (l : List Proxy) :
    (scanAvailable rateLimit retestDelay now l).2 =
      l.find? (isAvailable rateLimit now) := by
  induction l with
  | nil => simp [scanAvailable]
  | cons p rest ih =>
    by_cases ha : isAvailable rateLimit now p
    · simp [scanAvailable, ha, List.find?_cons_of_pos]
    · rw [List.find?_cons_of_neg _ (by simpa using ha), ← ih]
      by_cases hr : needsRetest retestDelay now p <;>
        simp [scanAvailable, ha, hr]

theorem find?_first_match {α : Type} (f : α → Bool) (l : List α) (a : α)
    (h : l.find? f = some a) :
    ∃ l1 l2, l = l1 ++ a :: l2 ∧ ∀ b ∈ l1, f b = false := by
  induction l with
  | nil => simp [List.find?] at h
  | cons x rest ih =>
    by_cases hx : f x
    · rw [List.find?_cons_of_pos _ hx] at h
      obtain rfl : x = a := by simpa using h
      exact ⟨[], rest, rfl, by simp⟩
    · rw [List.find?_cons_of_neg _ (by simpa using hx)] at h
      obtain ⟨l1, l2, hl, hall⟩ := ih h
      refine ⟨x :: l1, l2, by simp [hl], ?_⟩
      intro b hb
      rcases List.mem_cons.mp hb with rfl | hb
      · simpa using hx
      · exact hall b hb

/-- C3 counterexample: a proxy that is alive and has been idle exactly
`RateLimit` seconds (at least `rateLimit`, as the claim puts it) is NOT
selected — the code compares with strict greater-than, so the claim's
"idle at least `rateLimit` seconds and alive qualifies for selection" fails
at the boundary. -/
theorem rateLimit_boundary_counterexample :
    (10 : ℚ) - pAliveReady.lastRequest ≥ ((poolBoundary.RateLimit : Int) : ℚ)
    ∧ pAliveReady.Alive = true
    ∧ pAliveReady ∈ poolBoundary.proxies
    ∧ (poolBoundary.getAvailableProxy 10).2.2 = none := by
  refine ⟨by norm_num [pAliveReady, poolBoundary], by decide,
    by simp [poolBoundary], ?_⟩
  norm_num [ProxyPool.getAvailableProxy, scanAvailable, poolBoundary,
    pAliveReady, isAvailable, needsRetest]

/-- C3 (amended): `GetAvailableProxy` never returns a proxy whose elapsed
time since `lastRequest` is less than or equal to `RateLimit` seconds: a
selected proxy is alive with elapsed time strictly greater than
`RateLimit`, and the selection is exactly the first proxy, in pool order,
that is alive with elapsed time strictly greater than `RateLimit`. -/
theorem getAvailableProxy_strict_rateLimit (pool : ProxyPool) (now : ℚ) :
    (∀ p, (pool.getAvailableProxy now).2.2 = some p →
        p.Alive = true ∧ (pool.RateLimit : ℚ) < now - p.lastRequest)
    ∧ (pool.getAvailableProxy now).2.2 =
        pool.proxies.find? (isAvailable pool.RateLimit now) := by
  have hsel := scanAvailable_select pool.RateLimit pool.RetestDelay now
    pool.proxies
  constructor
  · intro p hp
    rw [ProxyPool.getAvailableProxy] at hp
    rw [hsel] at hp
    have := List.find?_some hp
    simp [isAvailable] at this
    exact ⟨this.2, this.1⟩
  · exact hsel

/-- Witness for C3's theorem at a concrete pool: one alive proxy last
used at time 0, `RateLimit` 10, queried at time 11. -/
theorem getAvailableProxy_strict_rateLimit_witness :
    pAliveReady.Alive = true ∧
      (poolBoundary.RateLimit : ℚ) < 11 - pAliveReady.lastRequest :=
  (getAvailableProxy_strict_rateLimit poolBoundary 11).1 pAliveReady
    (by norm_num [ProxyPool.getAvailableProxy, scanAvailable, poolBoundary,
      pAliveReady, isAvailable, needsRetest])

/-- C4: the scan spawns a background retest (`go proxies[i].Get(TestURL)`)
only for a proxy that is currently dead and whose elapsed time since
`lastRequest` strictly exceeds `RetestDelay` seconds; hence a dead proxy is
never background-retested sooner than `RetestDelay` seconds after its last
attempt. -/
theorem getAvailableProxy_retest_only_dead_cold (pool : ProxyPool)
    (now : ℚ) :
    ∀ q ∈ (pool.getAvailableProxy now).2.1,
      q.Alive = false ∧ (pool.RetestDelay : ℚ) < now - q.lastRequest := by
  intro q hq
  have := scanAvailable_retests pool.RateLimit pool.RetestDelay now
    pool.proxies q hq
  simp [needsRetest] at this
  exact ⟨this.2, this.1⟩

/-- Witness for C4's theorem at a concrete pool: one dead proxy last tried
at time 0, `RetestDelay` 300, queried at time 301. -/
theorem getAvailableProxy_retest_only_dead_cold_witness :
    pDeadCold.Alive = false ∧
      (poolDeadCold.RetestDelay : ℚ) < 301 - pDeadCold.lastRequest :=
  getAvailableProxy_retest_only_dead_cold poolDeadCold 301 pDeadCold
    (by norm_num [ProxyPool.getAvailableProxy, scanAvailable, poolDeadCold,
      pDeadCold, isAvailable, needsRetest])

/-- C5: `GetAvailableProxy` is a single in-order pass that mutates no pool
or proxy field itself; it returns `none` (the "no proxies available" error)
exactly when no proxy passes the alive-and-past-cooldown check, and a
returned proxy is the first passing one — everything before it in pool
order fails the check. -/
theorem getAvailableProxy_first_match_single_pass (pool : ProxyPool)
    (now : ℚ) :
    (pool.getAvailableProxy now).1 = pool
    ∧ ((pool.getAvailableProxy now).2.2 = none ↔
        ∀ p ∈ pool.proxies, isAvailable pool.RateLimit now p = false)
    ∧ (∀ p, (pool.getAvailableProxy now).2.2 = some p →
        isAvailable pool.RateLimit now p = true ∧
        ∃ l1 l2, pool.proxies = l1 ++ p :: l2 ∧
          ∀ q ∈ l1, isAvailable pool.RateLimit now q = false) := by
  have hsel := scanAvailable_select pool.RateLimit pool.RetestDelay now
    pool.proxies
  refine ⟨rfl, ?_, ?_⟩
  · rw [ProxyPool.getAvailableProxy, hsel]
    rw [List.find?_eq_none]
    constructor
    · intro h p hp
      simpa using h p hp
    · intro h p hp
      simpa using h p hp
  · intro p hp
    rw [ProxyPool.getAvailableProxy] at hp
    rw [hsel] at hp
    exact ⟨List.find?_some hp, find?_first_match _ _ _ hp⟩

/-- Witness for C5's theorem at a concrete pool: a dead proxy followed by
an alive one, queried at time 11 with `RateLimit` 10 — the second proxy is
returned and the first fails the availability check. -/
theorem getAvailableProxy_first_match_single_pass_witness :
    isAvailable poolTwo.RateLimit 11 pAliveReady = true ∧
    ∃ l1 l2, poolTwo.proxies = l1 ++ pAliveReady :: l2 ∧
      ∀ q ∈ l1, isAvailable poolTwo.RateLimit 11 q = false :=
  (getAvailableProxy_first_match_single_pass poolTwo 11).2.2 pAliveReady
    (by norm_num [ProxyPool.getAvailableProxy, scanAvailable, poolTwo,
      pDeadCold, pAliveReady, isAvailable, needsRetest])


/-- C9: negotiation attempts SOCKS5 first; only if that test fetch fails
is SOCKS4 attempted, once — so at most two attempts are made — and the
first attempt whose test fetch succeeds fixes the connection URL (and with
it the protocol) and ends negotiation, the `Alive` flag recording the last
attempt's outcome. -/
theorem create_socks5_then_socks4 (p : Proxy) (env : Int → HttpResult)
    (now : ℚ) :
    ((p.create env now).2 = [5] ∨ (p.create env now).2 = [5, 4])
    ∧ ((env 5).isSuccess = true →
        (p.create env now).2 = [5]
        ∧ (p.create env now).1.URL = socksURL 5 p.ip p.port
        ∧ (p.create env now).1.Alive = true)
    ∧ ((env 5).isSuccess = false →
        (p.create env now).2 = [5, 4]
        ∧ (p.create env now).1.URL = socksURL 4 p.ip p.port
        ∧ (p.create env now).1.Alive = (env 4).isSuccess) := by
  rcases h5 : env 5 with _ | ⟨c5, b5⟩
  · -- SOCKS5 attempt dies at the transport; SOCKS4 decides the outcome
    rcases h4 : env 4 with _ | ⟨c4, b4⟩
    · simp [Proxy.create, socksVersions, Proxy.createLoop, Proxy.get,
        HttpResult.isSuccess, h5, h4]
    · rcases b4 with e4 | buf4
      · simp [Proxy.create, socksVersions, Proxy.createLoop, Proxy.get,
          HttpResult.isSuccess, h5, h4]
      · by_cases hc4 : c4 = 200
        · subst hc4
          simp [Proxy.create, socksVersions, Proxy.createLoop, Proxy.get,
            HttpResult.isSuccess, h5, h4]
        · simp [Proxy.create, socksVersions, Proxy.createLoop, Proxy.get,
            HttpResult.isSuccess, h5, h4, hc4]
  · rcases b5 with e5 | buf5
    · -- SOCKS5 response body unreadable; SOCKS4 decides the outcome
      rcases h4 : env 4 with _ | ⟨c4, b4⟩
      · simp [Proxy.create, socksVersions, Proxy.createLoop, Proxy.get,
          HttpResult.isSuccess, h5, h4]
      · rcases b4 with e4 | buf4
        · simp [Proxy.create, socksVersions, Proxy.createLoop, Proxy.get,
            HttpResult.isSuccess, h5, h4]
        · by_cases hc4 : c4 = 200
          · subst hc4
            simp [Proxy.create, socksVersions, Proxy.createLoop, Proxy.get,
              HttpResult.isSuccess, h5, h4]
          · simp [Proxy.create, socksVersions, Proxy.createLoop, Proxy.get,
              HttpResult.isSuccess, h5, h4, hc4]
    · by_cases hc5 : c5 = 200
      · -- SOCKS5 test fetch succeeded: single attempt
        subst hc5
        simp [Proxy.create, socksVersions, Proxy.createLoop, Proxy.get,
          HttpResult.isSuccess, h5]
      · -- SOCKS5 got a non-200 status; SOCKS4 decides the outcome
        rcases h4 : env 4 with _ | ⟨c4, b4⟩
        · simp [Proxy.create, socksVersions, Proxy.createLoop, Proxy.get,
            HttpResult.isSuccess, h5, h4, hc5]
        · rcases b4 with e4 | buf4
          · simp [Proxy.create, socksVersions, Proxy.createLoop, Proxy.get,
              HttpResult.isSuccess, h5, h4, hc5]
          · by_cases hc4 : c4 = 200
            · subst hc4
              simp [Proxy.create, socksVersions, Proxy.createLoop, Proxy.get,
                HttpResult.isSuccess, h5, h4, hc5]
            · simp [Proxy.create, socksVersions, Proxy.createLoop, Proxy.get,
                HttpResult.isSuccess, h5, h4, hc5, hc4]

/-- Witness for C9's theorem: a proxy whose SOCKS5 test fetch succeeds is
negotiated in a single attempt, fixing the socks5 URL and leaving it
alive. -/
theorem create_socks5_then_socks4_witness :
    (({ ip := "7.7.7.7", port := 1080 } : Proxy).create envSocks5 0).2 = [5]
    ∧ (({ ip := "7.7.7.7", port := 1080 } : Proxy).create
        envSocks5 0).1.URL = socksURL 5 "7.7.7.7" 1080
    ∧ (({ ip := "7.7.7.7", port := 1080 } : Proxy).create
        envSocks5 0).1.Alive = true :=
  (create_socks5_then_socks4 { ip := "7.7.7.7", port := 1080 }
    envSocks5 0).2.1 rfl

/-- C6 counterexample: loading a source whose line has no colon separator
makes `LoadProxies` hit an index out of range on `line[1]` — a panic that
aborts the whole program — rather than reporting or skipping the record:
the claim's "LoadProxies does not panic on such a line" is false. -/
theorem loadProxies_no_colon_panics :
    (NewProxyPool "http://example.com" 10 300).loadProxies
      (Source.lines ["localhost"] false) envAllFail 0 =
      LoadOutcome.panicked := rfl

/-- C6 (amended): a malformed record is neither reported per-record nor
skipped: a line with no colon separator makes `LoadProxies` panic with an
index out of range, aborting the whole load, whatever the pool, the
environment, the timestamp and the remaining lines; and a non-numeric port
is silently turned into port 0 (`strconv.Atoi`'s error is discarded), the
candidate proceeding to negotiation like any other. -/
theorem loadProxies_malformed_records (pool : ProxyPool)
    (env : Nat → Int → HttpResult) (now : ℚ) (readErr : Bool)
    (rest : List String) :
    pool.loadProxies (.lines ("localhost" :: rest) readErr) env now =
      .panicked
    ∧ parseRecord "1.2.3.4:abc" = some ("1.2.3.4", 0) := by
  constructor
  · have h : parseRecord "localhost" = none := rfl
    simp [ProxyPool.loadProxies, parseRecords, h]
  · rfl

/-- C7 counterexample: when the source cannot be opened, `LoadProxies`
calls `log.Fatal`, terminating the process, instead of returning an error
to its caller. -/
theorem loadProxies_open_failure_fatal :
    (NewProxyPool "http://example.com" 10 300).loadProxies
      Source.openFailure envAllFail 0 = LoadOutcome.fatalExit := rfl

/-- C7 (amended): a source that cannot be opened terminates the process by
`log.Fatal` rather than surfacing an error; the load-time failure that is
surfaced to the caller is the scanner's read error, returned after the
survivors of the already-scanned lines were appended to the pool. -/
theorem loadProxies_error_surface (pool : ProxyPool)
    (env : Nat → Int → HttpResult) (now : ℚ) :
    pool.loadProxies Source.openFailure env now = .fatalExit
    ∧ (∀ content recs, parseRecords content = some recs →
        pool.loadProxies (.lines content true) env now =
          .failed { pool with proxies := pool.proxies ++
            (negotiateAll env now recs).filter (·.Alive) }) := by
  refine ⟨rfl, ?_⟩
  intro content recs h
  simp [ProxyPool.loadProxies, h]

/-- Witness for C7's amended theorem: a one-line source whose read fails
after the line was scanned, with a candidate that fails negotiation. -/
theorem loadProxies_error_surface_witness :
    (NewProxyPool "http://example.com" 10 300).loadProxies
        (.lines ["1.1.1.1:1080"] true) envAllFail 0 =
      .failed { NewProxyPool "http://example.com" 10 300 with
        proxies := (NewProxyPool "http://example.com" 10 300).proxies ++
          (negotiateAll envAllFail 0 [("1.1.1.1", 1080)]).filter
            (·.Alive) } :=
  (loadProxies_error_surface (NewProxyPool "http://example.com" 10 300)
    envAllFail 0).2 ["1.1.1.1:1080"] [("1.1.1.1", 1080)] rfl

/-- C8: loading a source that reads cleanly into a pool holding no proxies
leaves the pool holding exactly the candidates whose negotiation test
fetch succeeded, in original record order (`filter` keeps the order of
`negotiateAll`, which follows the records), and every admitted proxy is
alive — a candidate that failed both SOCKS versions is never present. -/
theorem loadProxies_admits_negotiated (pool : ProxyPool)
    (env : Nat → Int → HttpResult) (now : ℚ) (content : List String)
    (recs : List (String × Int))
    (hparse : parseRecords content = some recs)
    (hempty : pool.proxies = []) :
    pool.loadProxies (.lines content false) env now =
      .ok (ProxyPool.updateCounts
        { pool with
          proxies := (negotiateAll env now recs).filter (·.Alive) } now)
    ∧ ∀ q ∈ (negotiateAll env now recs).filter (·.Alive),
        q.Alive = true := by
  constructor
  · simp [ProxyPool.loadProxies, hparse, hempty]
  · intro q hq
    simpa using (List.mem_filter.mp hq).2

/-- Witness for C8's theorem: loading one negotiation-failing and one
negotiation-succeeding entry into a fresh pool yields a pool of size 1
holding only the succeeding entry. -/
theorem loadProxies_admits_negotiated_witness :
    ((NewProxyPool "http://example.com" 10 300).loadProxies
        (.lines ["1.1.1.1:1080", "2.2.2.2:1080"] false) envOneGood 0 =
      .ok (ProxyPool.updateCounts
        { NewProxyPool "http://example.com" 10 300 with
          proxies := (negotiateAll envOneGood 0
            [("1.1.1.1", 1080), ("2.2.2.2", 1080)]).filter (·.Alive) } 0))
    ∧ (negotiateAll envOneGood 0
        [("1.1.1.1", 1080), ("2.2.2.2", 1080)]).filter (·.Alive) =
      [proxyTwoGood] :=
  ⟨(loadProxies_admits_negotiated (NewProxyPool "http://example.com" 10 300)
      envOneGood 0 ["1.1.1.1:1080", "2.2.2.2:1080"]
      [("1.1.1.1", 1080), ("2.2.2.2", 1080)] rfl rfl).1, rfl⟩
